import Mathlib

/-!
Verification of the `ResponseAreaTub` class and the `initialiseTub` dispatcher
from `src/types/response-area-tub.ts`.

Modelling conventions:
* JavaScript values are modelled by the inductive type `Val`; a slot that may
  be `undefined` is an `Option Val` with `none` standing for `undefined` and
  `Val.vnull` standing for JavaScript `null`.
* A zod schema's `safeParse` is a function `Option Val → Option (Option Val)`:
  `none` is a failed parse, `some d` is a successful parse whose `data` is `d`.
* Methods that mutate the tub and may throw are modelled as functions
  `Tub → ... → Tub × Option TubError`: the first component is the state of the
  tub when the method returns or throws (so a throw after a partial update
  keeps the update, exactly as JavaScript exceptions do), the second is the
  thrown error, if any.
* `!this.responseType` uses JavaScript truthiness: it is true when
  `responseType` is `undefined` or the empty string; `strTruthy` captures this.
-/

/-- JavaScript/JSON values (excluding `undefined`, which is `Option.none`). -/
inductive Val where
  | vnull : Val
  | vbool : Bool → Val
  | vnum : Int → Val
  | vstr : String → Val
deriving DecidableEq, Repr

/-- A zod schema, seen through `safeParse`: input is a possibly-undefined
value, output is `none` on a failed parse and `some data` on success (where
`data` is the normalized value, itself possibly `undefined`). -/
def Schema : Type := Option Val → Option (Option Val)

/-- The errors thrown by `ResponseAreaTub` methods, by message. -/
inductive TubError where
  | notImplemented
  | couldNotExtractConfig
  | couldNotExtractAnswer
  | responseTypeMissing
  | answerMissing
deriving DecidableEq, Repr

/-- The state of a `ResponseAreaTub` instance: the `responseType`
discriminant, the capability flags with their class defaults, the declared
schemas, and the extracted `config` and `answer` values.
`answerSchema` is an `Option` because `extractAnswer` guards on its absence
at runtime (`if (!this.answerSchema) throw new Error('Not implemented')`). -/
structure Tub where
  responseType : Option String
  canToggleLatexInStats : Bool := false
  delegatePreResponseText : Bool := true
  delegatePostResponseText : Bool := true
  delegateLivePreview : Bool := true
  delegateFeedback : Bool := true
  delegateCheck : Bool := true
  delegateErrorMessage : Bool := true
  displayInFlexContainer : Bool := true
  displayWideInput : Bool := false
  displayAlwaysInColumn : Bool := false
  configSchema : Option Schema
  answerSchema : Option Schema
  config : Option Val := none
  answer : Option Val := none

/-- JavaScript truthiness of an optional string: `undefined` and `""` are
falsy, every other string is truthy. -/
def strTruthy : Option String → Bool
  | none => false
  | some s => s ≠ ""

/-- `extractConfig`: no-op when no `configSchema` is declared; otherwise
safe-parse the provided value, throw `Could not extract config` on failure,
and assign the parsed data to `config` on success. -/
def extractConfig (t : Tub) (provided : Option Val) : Tub × Option TubError :=
  match t.configSchema with
  | none => (t, none)
  | some s =>
    match s provided with
    | none => (t, some .couldNotExtractConfig)
    | some data => ({ t with config := data }, none)

/-- `extractAnswer`: throw `Not implemented` when no `answerSchema` is
present; otherwise safe-parse the provided value, throw
`Could not extract answer` on failure, and assign the parsed data to
`answer` on success. -/
def extractAnswer (t : Tub) (provided : Option Val) : Tub × Option TubError :=
  match t.answerSchema with
  | none => (t, some .notImplemented)
  | some s =>
    match s provided with
    | none => (t, some .couldNotExtractAnswer)
    | some data => ({ t with answer := data }, none)

/-- The `IModularResponseSchema`-shaped input to `initWithResponse`, reduced
to the two fields the method reads. -/
structure ModularResponseIn where
  config : Option Val
  answer : Option Val

/-- The `StudentModularResponseFragment`-shaped input to
`initWithStudentFragment`, reduced to the field the method reads. -/
structure StudentFragmentIn where
  config : Option Val

/-- The `TeacherModularResponseFragment`-shaped input to
`initWithTeacherFragment`, reduced to the two fields the method reads. -/
structure TeacherFragmentIn where
  config : Option Val
  answer : Option Val

/-- `initWithDefault`: the empty initializer — does nothing. -/
def initWithDefault (t : Tub) : Tub × Option TubError := (t, none)

/-- `initWithResponse`: extract config from `response.config`, then answer
from `response.answer`; an exception in the second step leaves the first
step's update in place. -/
def initWithResponse (t : Tub) (r : ModularResponseIn) : Tub × Option TubError :=
  match extractConfig t r.config with
  | (t₁, some e) => (t₁, some e)
  | (t₁, none) => extractAnswer t₁ r.answer

/-- `initWithStudentFragment`: extract config only. -/
def initWithStudentFragment (t : Tub) (f : StudentFragmentIn) :
    Tub × Option TubError :=
  extractConfig t f.config

/-- `initWithTeacherFragment`: extract config, then answer. -/
def initWithTeacherFragment (t : Tub) (f : TeacherFragmentIn) :
    Tub × Option TubError :=
  match extractConfig t f.config with
  | (t₁, some e) => (t₁, some e)
  | (t₁, none) => extractAnswer t₁ f.answer

/-- `setAnswer`: re-run answer extraction against a new value. -/
def setAnswer (t : Tub) (a : Option Val) : Tub × Option TubError :=
  extractAnswer t a

/-- Output shape of `toStudentFragment`; note the type has no `answer`
field at all. -/
structure StudentModularResponseFragment where
  __typename : String
  responseType : String
  config : Option Val
deriving DecidableEq, Repr

/-- Output shape of `toTeacherFragment`. The `answer` field is a defined
value, since the method throws before emitting an undefined answer. -/
structure TeacherModularResponseFragment where
  __typename : String
  responseType : String
  config : Option Val
  answer : Val
deriving DecidableEq, Repr

/-- Output shape of `toResponse`. -/
structure IModularResponseSchema where
  responseType : String
  config : Option Val
  answer : Val
deriving DecidableEq, Repr

/-- Output shape of `toResponseMutation`: the generic response wrapped in a
`responseInput` envelope. -/
structure TeacherCreateResponseInput where
  responseInput : IModularResponseSchema
deriving DecidableEq, Repr

/-- `toStudentFragment`: throw `Response type missing` when `responseType`
is falsy; otherwise emit the student fragment, which carries no answer. -/
def toStudentFragment (t : Tub) :
    Except TubError StudentModularResponseFragment :=
  match t.responseType with
  | none => .error .responseTypeMissing
  | some rt =>
    if rt = "" then .error .responseTypeMissing
    else .ok { __typename := "StudentModularResponse", responseType := rt,
               config := t.config }

/-- `toTeacherFragment`: throw `Response type missing` when `responseType`
is falsy, `Answer missing` when `answer` is `undefined`; otherwise emit the
teacher fragment. -/
def toTeacherFragment (t : Tub) :
    Except TubError TeacherModularResponseFragment :=
  match t.responseType with
  | none => .error .responseTypeMissing
  | some rt =>
    if rt = "" then .error .responseTypeMissing
    else
      match t.answer with
      | none => .error .answerMissing
      | some a => .ok { __typename := "TeacherModularResponse",
                        responseType := rt, config := t.config, answer := a }

/-- `toResponse`: same guards as `toTeacherFragment`, emitting the generic
response shape with no discriminant. -/
def toResponse (t : Tub) : Except TubError IModularResponseSchema :=
  match t.responseType with
  | none => .error .responseTypeMissing
  | some rt =>
    if rt = "" then .error .responseTypeMissing
    else
      match t.answer with
      | none => .error .answerMissing
      | some a => .ok { responseType := rt, config := t.config, answer := a }

/-- `toResponseMutation`: same guards, wrapping the generic shape under
`responseInput`. -/
def toResponseMutation (t : Tub) : Except TubError TeacherCreateResponseInput :=
  match t.responseType with
  | none => .error .responseTypeMissing
  | some rt =>
    if rt = "" then .error .responseTypeMissing
    else
      match t.answer with
      | none => .error .answerMissing
      | some a =>
        .ok { responseInput :=
                { responseType := rt, config := t.config, answer := a } }

/-- The display mode passed to `initialiseTub`. -/
inductive DisplayMode where
  | normal
  | peek
deriving DecidableEq, Repr

/-- The untyped `Record<string, unknown>` payload: an association list from
field names to values; a missing key reads as `undefined`. -/
def Payload : Type := List (String × Val)

/-- Property access on a payload: `none` when the key is absent. -/
def Payload.get (r : Payload) (k : String) : Option Val :=
  (r.find? (fun kv => kv.1 = k)).map (fun kv => kv.2)

/-- `initialiseTub`: default-initialise when the response is absent or the
display mode is `peek`; otherwise dispatch on the `__typename` discriminant
(teacher, then student, then the generic fallback). -/
def initialiseTub (t : Tub) (response : Option Payload)
    (displayMode : DisplayMode) : Tub × Option TubError :=
  match response with
  | none => initWithDefault t
  | some r =>
    if displayMode = .peek then
      initWithDefault t
    else if r.get "__typename" = some (.vstr "TeacherModularResponse") then
      initWithTeacherFragment t ⟨r.get "config", r.get "answer"⟩
    else if r.get "__typename" = some (.vstr "StudentModularResponse") then
      initWithStudentFragment t ⟨r.get "config"⟩
    else
      initWithResponse t ⟨r.get "config", r.get "answer"⟩

/-! ### Concrete instances used to demonstrate the theorems -/

/-- A demonstration config schema: accepts only strings and normalizes them
by appending `!` (so the normalized value differs from the raw input). -/
def csDemo : Schema := fun p =>
  match p with
  | some (.vstr s) => some (some (.vstr (s ++ "!")))
  | _ => none

/-- A demonstration answer schema: accepts only numbers, unchanged. -/
def asDemo : Schema := fun p =>
  match p with
  | some (.vnum n) => some (some (.vnum n))
  | _ => none

/-- A demonstration answer schema that normalizes every input to `null`. -/
def nullSchemaDemo : Schema := fun _ => some (some .vnull)

/-- A concrete tub with both schemas declared and a truthy `responseType`. -/
def tubDemo : Tub :=
  { responseType := some "demo", configSchema := some csDemo,
    answerSchema := some asDemo }

/-- A concrete tub whose `responseType` was never set. -/
def tubNoType : Tub :=
  { responseType := none, configSchema := some csDemo,
    answerSchema := some asDemo }

/-- A concrete tub with no `configSchema` declared. -/
def tubNoCfg : Tub :=
  { responseType := some "demo", configSchema := none,
    answerSchema := some asDemo }

/-- A concrete tub whose `responseType` is the empty string. -/
def tubEmptyType : Tub :=
  { responseType := some "", configSchema := some csDemo,
    answerSchema := some asDemo }

/-- A concrete tub whose answer schema normalizes everything to `null`. -/
def tubNull : Tub :=
  { responseType := some "demo", configSchema := none,
    answerSchema := some nullSchemaDemo }

/-- A concrete teacher-shaped payload. -/
def teacherPayloadDemo : Payload :=
  [("__typename", .vstr "TeacherModularResponse"),
   ("config", .vstr "c"), ("answer", .vnum 3)]

/-- A concrete student-shaped payload. -/
def studentPayloadDemo : Payload :=
  [("__typename", .vstr "StudentModularResponse"), ("config", .vstr "c")]

/-- A concrete generic payload with no `__typename` key. -/
def genericPayloadDemo : Payload :=
  [("config", .vstr "c"), ("answer", .vnum 3)]

/-! ### Claim theorems -/

/-- C2: `initialiseTub` with an absent response, and `initialiseTub` in
`peek` mode with any response present (teacher fragments included), both
perform default initialization: no error, state returned exactly as it was,
so on a freshly constructed tub (whose `config` and `answer` are undefined)
both remain undefined afterwards, for every tub variant. -/
theorem initialiseTub_default_c2 (t : Tub) (mode : DisplayMode) (r : Payload)
    (hc : t.config = none) (ha : t.answer = none) :
    initialiseTub t none mode = (t, none) ∧
    initialiseTub t (some r) .peek = (t, none) ∧
    (initialiseTub t none mode).1.config = none ∧
    (initialiseTub t none mode).1.answer = none ∧
    (initialiseTub t (some r) .peek).1.config = none ∧
    (initialiseTub t (some r) .peek).1.answer = none := by
  refine ⟨rfl, by simp [initialiseTub, initWithDefault], ?_, ?_, ?_, ?_⟩ <;>
    simp [initialiseTub, initWithDefault, hc, ha]

/-- C2 witness: a concrete fresh tub with a concrete teacher-shaped payload
in peek mode, and with no payload in normal mode. -/
theorem initialiseTub_default_c2_witness :
    initialiseTub tubDemo none .normal = (tubDemo, none) ∧
    initialiseTub tubDemo (some teacherPayloadDemo) .peek = (tubDemo, none) ∧
    (initialiseTub tubDemo none .normal).1.config = none ∧
    (initialiseTub tubDemo none .normal).1.answer = none ∧
    (initialiseTub tubDemo (some teacherPayloadDemo) .peek).1.config = none ∧
    (initialiseTub tubDemo (some teacherPayloadDemo) .peek).1.answer = none :=
  initialiseTub_default_c2 tubDemo .normal teacherPayloadDemo rfl rfl

/-- C4: every serialization method fails with `Response type missing` when
`responseType` is not set; with a truthy `responseType` but no answer,
`toTeacherFragment`, `toResponse` and `toResponseMutation` fail with
`Answer missing` while `toStudentFragment` succeeds — and its output type
(`StudentModularResponseFragment`) has no answer field at all. -/
theorem serialization_guards_c4 (t : Tub) :
    (t.responseType = none →
      toStudentFragment t = .error .responseTypeMissing ∧
      toTeacherFragment t = .error .responseTypeMissing ∧
      toResponse t = .error .responseTypeMissing ∧
      toResponseMutation t = .error .responseTypeMissing) ∧
    (∀ rt, t.responseType = some rt → rt ≠ "" → t.answer = none →
      toTeacherFragment t = .error .answerMissing ∧
      toResponse t = .error .answerMissing ∧
      toResponseMutation t = .error .answerMissing ∧
      toStudentFragment t =
        .ok { __typename := "StudentModularResponse", responseType := rt,
              config := t.config }) := by
  constructor
  · intro h
    refine ⟨?_, ?_, ?_, ?_⟩ <;>
      simp [toStudentFragment, toTeacherFragment, toResponse,
        toResponseMutation, h]
  · intro rt hrt hne ha
    refine ⟨?_, ?_, ?_, ?_⟩ <;>
      simp [toStudentFragment, toTeacherFragment, toResponse,
        toResponseMutation, hrt, hne, ha]

/-- C4 witness: concrete tubs with no `responseType` and with a set
`responseType` but no answer. -/
theorem serialization_guards_c4_witness :
    toStudentFragment tubNoType = .error .responseTypeMissing ∧
    toResponse tubNoType = .error .responseTypeMissing ∧
    toTeacherFragment tubDemo = .error .answerMissing ∧
    toStudentFragment tubDemo =
      .ok { __typename := "StudentModularResponse", responseType := "demo",
            config := none } :=
  ⟨((serialization_guards_c4 tubNoType).1 rfl).1,
   ((serialization_guards_c4 tubNoType).1 rfl).2.2.1,
   ((serialization_guards_c4 tubDemo).2 "demo" rfl (by decide) rfl).1,
   ((serialization_guards_c4 tubDemo).2 "demo" rfl (by decide) rfl).2.2.2⟩

/-- C5: when the declared schema rejects the provided payload,
`extractConfig` throws `Could not extract config` and `extractAnswer`
throws `Could not extract answer`, and each leaves the tub exactly as it
was (no partial assignment). -/
theorem extract_failure_unchanged_c5 (t : Tub) (cs sch : Schema)
    (p q : Option Val) (hcs : t.configSchema = some cs)
    (hsch : t.answerSchema = some sch) (h1 : cs p = none)
    (h2 : sch q = none) :
    extractConfig t p = (t, some .couldNotExtractConfig) ∧
    extractAnswer t q = (t, some .couldNotExtractAnswer) := by
  constructor <;> simp [extractConfig, extractAnswer, hcs, hsch, h1, h2]

/-- C5 witness: the demo tub with a config payload that is not a string and
an answer payload that is not a number. -/
theorem extract_failure_unchanged_c5_witness :
    extractConfig tubDemo (some .vnull) =
      (tubDemo, some .couldNotExtractConfig) ∧
    extractAnswer tubDemo (some (.vstr "bad")) =
      (tubDemo, some .couldNotExtractAnswer) :=
  extract_failure_unchanged_c5 tubDemo csDemo asDemo (some .vnull)
    (some (.vstr "bad")) rfl rfl rfl rfl

/-- C6: with no `configSchema` declared, `extractConfig` is a no-op for
every provided value: no error, and the returned tub is exactly the input
tub, every field unchanged. -/
theorem extractConfig_noop_c6 (t : Tub) (p : Option Val)
    (h : t.configSchema = none) :
    extractConfig t p = (t, none) := by
  simp [extractConfig, h]

/-- C6 witness: the schema-less demo tub with an arbitrary provided value. -/
theorem extractConfig_noop_c6_witness :
    extractConfig tubNoCfg (some (.vstr "anything")) = (tubNoCfg, none) :=
  extractConfig_noop_c6 tubNoCfg (some (.vstr "anything")) rfl

/-- C8: whole-payload initialization is not atomic: on the demo tub, a
payload whose config part validates but whose answer part fails leaves
`initWithResponse` (and `initWithTeacherFragment`) throwing
`Could not extract answer` with `config` already reassigned to the newly
validated value — the tub is partially updated, not restored. -/
theorem initWithResponse_partial_update_c8 :
    initWithResponse tubDemo ⟨some (.vstr "c"), some (.vstr "bad")⟩ =
      ({ tubDemo with config := some (.vstr "c!") },
        some .couldNotExtractAnswer) ∧
    initWithTeacherFragment tubDemo ⟨some (.vstr "c"), some (.vstr "bad")⟩ =
      ({ tubDemo with config := some (.vstr "c!") },
        some .couldNotExtractAnswer) ∧
    tubDemo.config = none ∧
    ({ tubDemo with config := some (.vstr "c!") } : Tub).config ≠
      tubDemo.config :=
  ⟨rfl, rfl, rfl, by decide⟩

/-- C9: an empty-string `responseType` is falsy, so all four serialization
methods fail with `Response type missing`, exactly as when it is unset. -/
theorem empty_responseType_c9 (t : Tub) (h : t.responseType = some "") :
    toStudentFragment t = .error .responseTypeMissing ∧
    toTeacherFragment t = .error .responseTypeMissing ∧
    toResponse t = .error .responseTypeMissing ∧
    toResponseMutation t = .error .responseTypeMissing := by
  refine ⟨?_, ?_, ?_, ?_⟩ <;>
    simp [toStudentFragment, toTeacherFragment, toResponse,
      toResponseMutation, h]

/-- C9 witness: the concrete tub whose `responseType` is `""`. -/
theorem empty_responseType_c9_witness :
    toStudentFragment tubEmptyType = .error .responseTypeMissing ∧
    toTeacherFragment tubEmptyType = .error .responseTypeMissing ∧
    toResponse tubEmptyType = .error .responseTypeMissing ∧
    toResponseMutation tubEmptyType = .error .responseTypeMissing :=
  empty_responseType_c9 tubEmptyType rfl

/-- C10: the answer guard compares to `undefined` only — when the answer
schema normalizes a provided payload to `null`, extraction succeeds and
`toTeacherFragment`, `toResponse` and `toResponseMutation` all succeed,
emitting `null` as the answer rather than failing. -/
theorem null_answer_serializes_c10 (t : Tub) (rt : String) (sch : Schema)
    (p : Option Val) (hrt : t.responseType = some rt) (hne : rt ≠ "")
    (hsch : t.answerSchema = some sch) (hp : sch p = some (some .vnull)) :
    (extractAnswer t p).2 = none ∧
    toTeacherFragment (extractAnswer t p).1 =
      .ok { __typename := "TeacherModularResponse", responseType := rt,
            config := t.config, answer := .vnull } ∧
    toResponse (extractAnswer t p).1 =
      .ok { responseType := rt, config := t.config, answer := .vnull } ∧
    toResponseMutation (extractAnswer t p).1 =
      .ok { responseInput := { responseType := rt, config := t.config,
                               answer := .vnull } } := by
  refine ⟨?_, ?_, ?_, ?_⟩ <;>
    simp [extractAnswer, toTeacherFragment, toResponse, toResponseMutation,
      hsch, hp, hrt, hne]

/-- C10 witness: the tub whose answer schema normalizes everything to
`null`, applied to a concrete provided value. -/
theorem null_answer_serializes_c10_witness :
    (extractAnswer tubNull (some (.vstr "x"))).2 = none ∧
    toTeacherFragment (extractAnswer tubNull (some (.vstr "x"))).1 =
      .ok { __typename := "TeacherModularResponse", responseType := "demo",
            config := none, answer := .vnull } ∧
    toResponse (extractAnswer tubNull (some (.vstr "x"))).1 =
      .ok { responseType := "demo", config := none, answer := .vnull } ∧
    toResponseMutation (extractAnswer tubNull (some (.vstr "x"))).1 =
      .ok { responseInput := { responseType := "demo", config := none,
                               answer := .vnull } } :=
  null_answer_serializes_c10 tubNull "demo" nullSchemaDemo (some (.vstr "x"))
    rfl (by decide) rfl rfl

/-- C3: for a tub with a truthy `responseType` and both schemas declared,
initializing from a `(config, answer)` pair accepted by the schemas and then
serializing with `toResponse` yields `{responseType, config, answer}` where
`config` and `answer` are the schema-normalized values, not the raw inputs. -/
theorem initWithResponse_toResponse_roundtrip_c3 (t : Tub) (rt : String)
    (cs sch : Schema) (cfgRaw ansRaw cfgN : Option Val) (av : Val)
    (hrt : t.responseType = some rt) (hne : rt ≠ "")
    (hcs : t.configSchema = some cs) (hsch : t.answerSchema = some sch)
    (h1 : cs cfgRaw = some cfgN) (h2 : sch ansRaw = some (some av)) :
    (initWithResponse t ⟨cfgRaw, ansRaw⟩).2 = none ∧
    toResponse (initWithResponse t ⟨cfgRaw, ansRaw⟩).1 =
      .ok { responseType := rt, config := cfgN, answer := av } := by
  constructor <;>
    simp [initWithResponse, extractConfig, extractAnswer, toResponse,
      hcs, hsch, h1, h2, hrt, hne]

/-- C3 witness: the demo tub round-trips a concrete accepted pair; the
emitted config is the normalized `"c!"`, not the raw `"c"`. -/
theorem initWithResponse_toResponse_roundtrip_c3_witness :
    (initWithResponse tubDemo ⟨some (.vstr "c"), some (.vnum 3)⟩).2 = none ∧
    toResponse (initWithResponse tubDemo
        ⟨some (.vstr "c"), some (.vnum 3)⟩).1 =
      .ok { responseType := "demo", config := some (.vstr "c!"),
            answer := .vnum 3 } :=
  initWithResponse_toResponse_roundtrip_c3 tubDemo "demo" csDemo asDemo
    (some (.vstr "c")) (some (.vnum 3)) (some (.vstr "c!")) (.vnum 3)
    rfl (by decide) rfl rfl rfl rfl

/-- Helper: `extractConfig` applied to its own output state is a fixed
point: the schema only reads the provided value, so re-running the
extraction reproduces the same state and error. -/
theorem extractConfig_idem (t : Tub) (p : Option Val) :
    extractConfig (extractConfig t p).1 p = extractConfig t p := by
  cases hcs : t.configSchema with
  | none => simp [extractConfig, hcs]
  | some cs =>
    cases hq : cs p with
    | none => simp [extractConfig, hcs, hq]
    | some d => simp [extractConfig, hcs, hq]

/-- Helper: re-running `initWithResponse` with the same payload from the
state the first run produced reproduces that state and error exactly. -/
theorem initWithResponse_idem (t : Tub) (r : ModularResponseIn) :
    initWithResponse (initWithResponse t r).1 r = initWithResponse t r := by
  cases hcs : t.configSchema with
  | none =>
    cases hsch : t.answerSchema with
    | none => simp [initWithResponse, extractConfig, extractAnswer, hcs, hsch]
    | some sch =>
      cases hp : sch r.answer with
      | none =>
        simp [initWithResponse, extractConfig, extractAnswer, hcs, hsch, hp]
      | some d =>
        simp [initWithResponse, extractConfig, extractAnswer, hcs, hsch, hp]
  | some cs =>
    cases hq : cs r.config with
    | none => simp [initWithResponse, extractConfig, hcs, hq]
    | some data =>
      cases hsch : t.answerSchema with
      | none =>
        simp [initWithResponse, extractConfig, extractAnswer, hcs, hsch, hq]
      | some sch =>
        cases hp : sch r.answer with
        | none =>
          simp [initWithResponse, extractConfig, extractAnswer, hcs, hsch,
            hq, hp]
        | some d =>
          simp [initWithResponse, extractConfig, extractAnswer, hcs, hsch,
            hq, hp]

/-- Helper: `initWithTeacherFragment` is the same computation as
`initWithResponse` on the fragment's two fields. -/
theorem initWithTeacherFragment_eq (t : Tub) (g : TeacherFragmentIn) :
    initWithTeacherFragment t g = initWithResponse t ⟨g.config, g.answer⟩ :=
  rfl

/-- C7: each initialization path is idempotent when reapplied with the same
payload: running it a second time from the state the first run left behind
reproduces exactly that state (and the same error, if any). -/
theorem init_paths_idempotent_c7 (t : Tub) (r : ModularResponseIn)
    (f : StudentFragmentIn) (g : TeacherFragmentIn) :
    initWithDefault (initWithDefault t).1 = initWithDefault t ∧
    initWithResponse (initWithResponse t r).1 r = initWithResponse t r ∧
    initWithStudentFragment (initWithStudentFragment t f).1 f =
      initWithStudentFragment t f ∧
    initWithTeacherFragment (initWithTeacherFragment t g).1 g =
      initWithTeacherFragment t g := by
  refine ⟨rfl, initWithResponse_idem t r, extractConfig_idem t f.config, ?_⟩
  rw [initWithTeacherFragment_eq, initWithTeacherFragment_eq,
    initWithResponse_idem]

/-- C1: with a response present and a display mode other than `peek`,
`initialiseTub` dispatches on `__typename` in order: a
`TeacherModularResponse` payload invokes `initWithTeacherFragment` (and,
when the declared schemas accept the payload's parts, both `config` and
`answer` end up populated with the normalized values); a
`StudentModularResponse` payload invokes `initWithStudentFragment` (only
`config` is populated, `answer` stays as it was — undefined on a fresh
tub); a payload with no recognized discriminant falls back to
`initWithResponse`, extracting both. -/
theorem initialiseTub_dispatch_c1 (t : Tub) (r : Payload) (mode : DisplayMode)
    (hmode : mode ≠ .peek) :
    (r.get "__typename" = some (.vstr "TeacherModularResponse") →
      initialiseTub t (some r) mode =
        initWithTeacherFragment t ⟨r.get "config", r.get "answer"⟩ ∧
      ∀ cs sch cfgN ansN, t.configSchema = some cs →
        t.answerSchema = some sch → cs (r.get "config") = some cfgN →
        sch (r.get "answer") = some ansN →
        (initialiseTub t (some r) mode).1.config = cfgN ∧
        (initialiseTub t (some r) mode).1.answer = ansN ∧
        (initialiseTub t (some r) mode).2 = none) ∧
    (r.get "__typename" = some (.vstr "StudentModularResponse") →
      initialiseTub t (some r) mode =
        initWithStudentFragment t ⟨r.get "config"⟩ ∧
      ∀ cs cfgN, t.configSchema = some cs →
        cs (r.get "config") = some cfgN →
        (initialiseTub t (some r) mode).1.config = cfgN ∧
        (initialiseTub t (some r) mode).1.answer = t.answer ∧
        (t.answer = none → (initialiseTub t (some r) mode).1.answer = none) ∧
        (initialiseTub t (some r) mode).2 = none) ∧
    (r.get "__typename" ≠ some (.vstr "TeacherModularResponse") →
      r.get "__typename" ≠ some (.vstr "StudentModularResponse") →
      initialiseTub t (some r) mode =
        initWithResponse t ⟨r.get "config", r.get "answer"⟩ ∧
      ∀ cs sch cfgN ansN, t.configSchema = some cs →
        t.answerSchema = some sch → cs (r.get "config") = some cfgN →
        sch (r.get "answer") = some ansN →
        (initialiseTub t (some r) mode).1.config = cfgN ∧
        (initialiseTub t (some r) mode).1.answer = ansN ∧
        (initialiseTub t (some r) mode).2 = none) := by
  refine ⟨?_, ?_, ?_⟩
  · intro h
    refine ⟨by simp [initialiseTub, hmode, h], ?_⟩
    intro cs sch cfgN ansN hcs hsch h1 h2
    refine ⟨?_, ?_, ?_⟩ <;>
      simp [initialiseTub, hmode, h, initWithTeacherFragment, extractConfig,
        extractAnswer, hcs, hsch, h1, h2]
  · intro h
    refine ⟨by simp [initialiseTub, hmode, h], ?_⟩
    intro cs cfgN hcs h1
    refine ⟨?_, ?_, fun ha => ?_, ?_⟩ <;>
      simp [initialiseTub, hmode, h, initWithStudentFragment, extractConfig,
        hcs, h1]
    exact ha
  · intro h1 h2
    refine ⟨by simp [initialiseTub, hmode, h1, h2], ?_⟩
    intro cs sch cfgN ansN hcs hsch hq hp
    refine ⟨?_, ?_, ?_⟩ <;>
      simp [initialiseTub, hmode, h1, h2, initWithResponse, extractConfig,
        extractAnswer, hcs, hsch, hq, hp]

/-- C1 witness: the demo tub dispatched on concrete teacher, student and
generic payloads, with the demo schemas accepting the payload parts. -/
theorem initialiseTub_dispatch_c1_witness :
    ((initialiseTub tubDemo (some teacherPayloadDemo) .normal).1.config =
        some (.vstr "c!") ∧
      (initialiseTub tubDemo (some teacherPayloadDemo) .normal).1.answer =
        some (.vnum 3) ∧
      (initialiseTub tubDemo (some teacherPayloadDemo) .normal).2 = none) ∧
    ((initialiseTub tubDemo (some studentPayloadDemo) .normal).1.config =
        some (.vstr "c!") ∧
      (initialiseTub tubDemo (some studentPayloadDemo) .normal).1.answer =
        none) ∧
    ((initialiseTub tubDemo (some genericPayloadDemo) .normal).1.config =
        some (.vstr "c!") ∧
      (initialiseTub tubDemo (some genericPayloadDemo) .normal).1.answer =
        some (.vnum 3) ∧
      (initialiseTub tubDemo (some genericPayloadDemo) .normal).2 = none) :=
  ⟨((initialiseTub_dispatch_c1 tubDemo teacherPayloadDemo .normal
      (by decide)).1 (by decide)).2 csDemo asDemo (some (.vstr "c!"))
      (some (.vnum 3)) rfl rfl (by decide) (by decide),
   ⟨(((initialiseTub_dispatch_c1 tubDemo studentPayloadDemo .normal
        (by decide)).2.1 (by decide)).2 csDemo (some (.vstr "c!")) rfl
        (by decide)).1,
    (((initialiseTub_dispatch_c1 tubDemo studentPayloadDemo .normal
        (by decide)).2.1 (by decide)).2 csDemo (some (.vstr "c!")) rfl
        (by decide)).2.2.1 rfl⟩,
   ((initialiseTub_dispatch_c1 tubDemo genericPayloadDemo .normal
      (by decide)).2.2 (by decide) (by decide)).2 csDemo asDemo
      (some (.vstr "c!")) (some (.vnum 3)) rfl rfl (by decide) (by decide)⟩
